import Mathlib

/-!
Shallow embedding of `src/web/static/js/game.js` (browser client of the
LLM chatting adventure game).  The client keeps a mutable record
`gameState = {sessionId, currentEncounter, state}`, a chat transcript, and
a handful of DOM controls.  We model the DOM-visible client state as an
explicit record (`ClientState`) and every event handler as a pure state
transformer; network completions are passed in as explicit outcome values,
so the pre-request phase and the completion handler of an async function
can be composed or interleaved with other events (restart) exactly as the
browser event loop would.
-/

namespace GameJs

/-- Opaque encounter payload delivered by the server. -/
abbrev Encounter := String

/-- `state.resources` / `result.resources`: each field may be absent
(JS `undefined`, modelled by `none`). -/
structure Resources where
  health : Option Int
  mental : Option Int
  money : Option Int
deriving Repr, DecidableEq

/-- A game-state snapshot `{resources, gadgets}`; `gadgets` is modelled by
its key list (`Object.keys` order), the whole object may be absent. -/
structure StateSnapshot where
  resources : Option Resources
  gadgets : Option (List String)
deriving Repr, DecidableEq

/-- One entry of `result.gadgets`: `{id, action, amount}`. -/
structure GadgetChange where
  id : String
  action : String
  amount : Int
deriving Repr, DecidableEq

/-- `data.result`: `{resources?, gadgets?}`; an absent `gadgets` array is
the empty list. -/
structure ChoiceResultData where
  resources : Option Resources
  gadgets : List GadgetChange
deriving Repr, DecidableEq

/-- `data.choice_mapped`: `{story?, explanation?}`. -/
structure ChoiceMapped where
  story : Option String
  explanation : Option String
deriving Repr, DecidableEq

/-- One item of `data.messages`: `{type?, content?, url?, alt?}`. -/
structure MessageItem where
  type : Option String
  content : Option String
  url : Option String
  alt : Option String
deriving Repr, DecidableEq

/-- JSON body of a `/choice` response.  `error` present and non-empty means
the error path; `game_over` models the truthiness test on that field. -/
structure ChoiceData where
  error : Option String
  choice_mapped : Option ChoiceMapped
  result : Option ChoiceResultData
  state : Option StateSnapshot
  game_over : Bool
  game_over_reason : Option String
  next_encounter : Option Encounter
  messages : List MessageItem
deriving Repr, DecidableEq

/-- JSON body of a `/start` response. -/
structure StartData where
  error : Option String
  session_id : Option String
  encounter : Option Encounter
  state : Option StateSnapshot
  messages : List MessageItem
deriving Repr, DecidableEq

/-- Network outcome of an in-flight choice request: either the `catch`
path (transport or JSON-parse failure) or a parsed JSON body. -/
inductive ChoiceOutcome where
  | transportError : ChoiceOutcome
  | response : ChoiceData → ChoiceOutcome
deriving Repr, DecidableEq

/-- Network outcome of an in-flight start request. -/
inductive StartOutcome where
  | transportError : StartOutcome
  | response : StartData → StartOutcome
deriving Repr, DecidableEq

/-- The client's `gameState` record. -/
structure Session where
  sessionId : Option String
  currentEncounter : Option Encounter
  state : Option StateSnapshot
deriving Repr, DecidableEq

/-- One entry of the chat transcript: a `addMessage(text, kind)` div, or
the `message-group encounter` wrapper appended by `addEncounterBubbles`
(which then fills it from timers, modelled separately). -/
inductive ChatEntry where
  | msg : String → String → ChatEntry
  | encounterGroup : List MessageItem → ChatEntry
deriving Repr, DecidableEq

/-- The resource/gadget display written by `updateGameState`:
icon rows (`true` = filled), the three `N/3` labels, and the gadget list. -/
structure Display where
  healthIcons : List Bool
  mentalIcons : List Bool
  moneyIcons : List Bool
  healthValue : String
  mentalValue : String
  moneyValue : String
  gadgetsList : String
deriving Repr, DecidableEq

/-- DOM-visible UI state: screen visibility, control `disabled` flags, the
input field's value, the transcript, `window.alert` calls, the display. -/
structure UI where
  welcomeVisible : Bool
  gameVisible : Bool
  gameOverVisible : Bool
  gameOverReason : String
  startDisabled : Bool
  chatInputDisabled : Bool
  sendDisabled : Bool
  chatInputValue : String
  chat : List ChatEntry
  alerts : List String
  display : Display
deriving Repr, DecidableEq

/-- Whole client state: the `gameState` record plus the DOM. -/
structure ClientState where
  session : Session
  ui : UI
deriving Repr, DecidableEq

/-- JS `String.prototype.trim`, modelled structurally over the character
list (drop leading and trailing whitespace). -/
def jsTrim (s : String) : String :=
  ⟨((s.data.dropWhile Char.isWhitespace).reverse.dropWhile Char.isWhitespace).reverse⟩

/-- JS string truthiness: `s || ...` and `if (s)` treat `undefined` and
`""` as falsy; `jsTruthy` returns `none` exactly in those cases. -/
def jsTruthy : Option String → Option String
  | none => none
  | some s => if s = "" then none else some s

/-- `addMessage(text, type)`: append one message div to the transcript. -/
def addMessage (chat : List ChatEntry) (text kind : String) : List ChatEntry :=
  chat ++ [ChatEntry.msg text kind]

/-- `updateIconGroup(_, value, max)`: icon `i` gets class `empty` iff
`i >= value`; we record the filled flags `i < value`. -/
def updateIconGroup (value : Int) (max : Nat) : List Bool :=
  (List.range max).map fun i => decide ((i : Int) < value)

/-- `updateGameState(state)` (game.js:177-198): no-op when `state` is
absent; otherwise clamp each resource (nullish-defaults 3/3/0) to [0,3],
rewrite icon rows and `N/3` labels, and join the gadget keys. -/
def updateGameState (st : Option StateSnapshot) (d : Display) : Display :=
  match st with
  | none => d
  | some s =>
    let r := s.resources.getD ⟨none, none, none⟩
    let health := min 3 (max 0 (r.health.getD 3))
    let mental := min 3 (max 0 (r.mental.getD 3))
    let money := min 3 (max 0 (r.money.getD 0))
    let joined := String.intercalate ", " (s.gadgets.getD [])
    { healthIcons := updateIconGroup health 3
      mentalIcons := updateIconGroup mental 3
      moneyIcons := updateIconGroup money 3
      healthValue := toString health ++ "/3"
      mentalValue := toString mental ++ "/3"
      moneyValue := toString money ++ "/3"
      gadgetsList := if joined = "" then "없음" else joined }

/-- The `story` expression of game.js:105:
`(data.choice_mapped && (cm.story || cm.explanation)) || ''`,
followed by the `if (story)` truthiness test. -/
def storyText (cm : Option ChoiceMapped) : Option String :=
  match cm with
  | none => none
  | some c =>
    match jsTruthy c.story with
    | some s => some s
    | none => jsTruthy c.explanation

/-- The `changes` array of game.js:115-124: one signed line per resource
delta that is defined and non-zero, positive deltas get an explicit "+". -/
def resourceChanges (r : Resources) : List String :=
  (match r.health with
   | some h => if h ≠ 0 then ["체력: " ++ (if h > 0 then "+" else "") ++ toString h] else []
   | none => []) ++
  (match r.mental with
   | some m => if m ≠ 0 then ["멘탈: " ++ (if m > 0 then "+" else "") ++ toString m] else []
   | none => []) ++
  (match r.money with
   | some m => if m ≠ 0 then ["돈: " ++ (if m > 0 then "+" else "") ++ toString m] else []
   | none => [])

/-- The gadget `map` callback of game.js:131-137: `acquire` and `lose`
render to a line, any other action maps to `undefined` and is removed by
`.filter(Boolean)`. -/
def gadgetChangeText (g : GadgetChange) : Option String :=
  if g.action = "acquire" then
    some (g.id ++ " 획득 (+" ++ toString g.amount ++ ")")
  else if g.action = "lose" then
    some (g.id ++ " 손실 (-" ++ toString g.amount ++ ")")
  else
    none

/-- `resultText` accumulation of game.js:112-141: a resource-delta line
(only when some delta survived) then a gadget-change line (only when some
entry survived), each newline-terminated. -/
def buildResultText (res : ChoiceResultData) : String :=
  let t1 :=
    match res.resources with
    | none => ""
    | some r =>
      let changes := resourceChanges r
      if changes.length > 0 then "자원 변화: " ++ String.intercalate ", " changes ++ "\n" else ""
  let t2 :=
    if res.gadgets.length > 0 then
      let gc := res.gadgets.filterMap gadgetChangeText
      if gc.length > 0 then "가젯 변화: " ++ String.intercalate ", " gc ++ "\n" else ""
    else ""
  t1 ++ t2

/-- game.js:143-145: the single combined "result" chat entry, suppressed
when the composite text is empty (`if (resultText)`). -/
def resultEntry (res : ChoiceResultData) : Option ChatEntry :=
  let t := buildResultText res
  if t = "" then none else some (ChatEntry.msg (jsTrim t) "result")

/-- The chat-level effect of `addEncounterBubbles(items)` (game.js:232-236):
nothing on an empty list, otherwise one `message-group encounter` wrapper
appended once. -/
def addEncounterBubblesGroup (chat : List ChatEntry) (items : List MessageItem) : List ChatEntry :=
  if items.isEmpty then chat else chat ++ [ChatEntry.encounterGroup items]

/-- The timer schedule of `items.forEach((m, index) => setTimeout(..., index * 500))`
(game.js:239-259): item at position `b + k` of the original list is paired
with delay `(b + k) * 500`, all measured from call time. -/
def scheduleFrom : Nat → List MessageItem → List (Nat × MessageItem)
  | _, [] => []
  | b, m :: rest => (b * 500, m) :: scheduleFrom (b + 1) rest

/-- The full schedule built by `addEncounterBubbles` (empty input is an
early return). -/
def addEncounterBubblesSchedule (items : List MessageItem) : List (Nat × MessageItem) :=
  if items.isEmpty then [] else scheduleFrom 0 items

/-- A node produced by one fired bubble timer. -/
inductive RenderedNode where
  | image : String → String → RenderedNode
  | bubble : String → RenderedNode
deriving Repr, DecidableEq

/-- Body of one timer callback (game.js:241-256): an image item with empty
(`m.url || ''`) URL yields nothing, a text item whose trimmed
(`(m.content || '').trim()`) content is empty yields nothing, otherwise
exactly one node. -/
def renderBubbleItem (m : MessageItem) : Option RenderedNode :=
  if m.type = some "image" then
    let url := m.url.getD ""
    if url = "" then none
    else some (RenderedNode.image url (m.alt.getD ""))
  else
    let text := jsTrim (m.content.getD "")
    if text = "" then none else some (RenderedNode.bubble text)

/-- The restart handler (game.js:53-59): reset `gameState`, hide the
game-over screen, show the welcome screen, clear the transcript, re-enable
the start button.  Nothing else is touched. -/
def restartClick (c : ClientState) : ClientState :=
  { session := { sessionId := none, currentEncounter := none, state := none }
    ui := { c.ui with
      gameOverVisible := false
      welcomeVisible := true
      chat := []
      startDisabled := false } }

/-- Pre-network phase of the start handler (game.js:19-23): bail out while
disabled, else disable the button and clear the transcript; the `Bool`
records whether a start request was issued. -/
def startClickPre (c : ClientState) : ClientState × Bool :=
  if c.ui.startDisabled then (c, false)
  else
    ({ c with ui := { c.ui with startDisabled := true, chat := [] } }, true)

/-- The whole start handler run to completion against outcome `out`
(game.js:19-50): error and catch paths alert and re-enable the button; the
success path fills `gameState`, swaps welcome for game screen, syncs the
display and appends the encounter group.  The input-field and send-button
`disabled` flags are never touched. -/
def startClick (c : ClientState) (out : StartOutcome) : ClientState :=
  let (c1, fired) := startClickPre c
  if fired then
    match out with
    | StartOutcome.transportError =>
      { c1 with ui := { c1.ui with
          alerts := c1.ui.alerts ++ ["게임을 시작할 수 없습니다."]
          startDisabled := false } }
    | StartOutcome.response d =>
      match jsTruthy d.error with
      | some e =>
        { c1 with ui := { c1.ui with
            alerts := c1.ui.alerts ++ [e]
            startDisabled := false } }
      | none =>
        { session := { sessionId := d.session_id, currentEncounter := d.encounter, state := d.state }
          ui := { c1.ui with
            welcomeVisible := false
            gameVisible := true
            display := updateGameState d.state c1.ui.display
            chat := addEncounterBubblesGroup c1.ui.chat d.messages } }
  else c1

/-- Pre-network phase of `sendChoice` (game.js:69-93): trim the field; empty
input returns silently; without a session alert and return; otherwise echo
the player's message, clear the field, disable both input controls, and
issue the request (returned as `some (sessionId, input)`). -/
def sendChoicePre (c : ClientState) : ClientState × Option (String × String) :=
  let input := jsTrim c.ui.chatInputValue
  if input = "" then (c, none)
  else
    match c.session.sessionId with
    | none =>
      ({ c with ui := { c.ui with alerts := c.ui.alerts ++ ["게임을 먼저 시작해주세요."] } }, none)
    | some sid =>
      ({ c with ui := { c.ui with
          chat := addMessage c.ui.chat input "player"
          chatInputValue := ""
          chatInputDisabled := true
          sendDisabled := true } },
       some (sid, input))

/-- The completion handler of an in-flight choice request applied to
whatever client state exists when the response arrives (game.js:95-174).
The closure reads the module globals (`gameState`, DOM), so it operates on
the state at arrival time, with no session-identity check. -/
def applyChoiceResponse (c : ClientState) (out : ChoiceOutcome) : ClientState :=
  match out with
  | ChoiceOutcome.transportError =>
    { c with ui := { c.ui with
        chat := addMessage c.ui.chat "오류가 발생했습니다. 다시 시도해주세요." "system"
        chatInputDisabled := false
        sendDisabled := false } }
  | ChoiceOutcome.response d =>
    match jsTruthy d.error with
    | some e =>
      { c with ui := { c.ui with
          chat := addMessage c.ui.chat e "system"
          chatInputDisabled := false
          sendDisabled := false } }
    | none =>
      let chat1 :=
        match storyText d.choice_mapped with
        | some s => addMessage c.ui.chat s "story"
        | none => c.ui.chat
      let chat2 :=
        match d.result with
        | none => chat1
        | some res => chat1 ++ (resultEntry res).toList
      let disp := updateGameState d.state c.ui.display
      if d.game_over then
        { c with ui := { c.ui with
            chat := chat2
            display := disp
            gameOverVisible := true
            gameVisible := false
            gameOverReason := (jsTruthy d.game_over_reason).getD "게임이 종료되었습니다." } }
      else
        match d.next_encounter with
        | some enc =>
          { session := { c.session with currentEncounter := some enc }
            ui := { c.ui with
              chat := addEncounterBubblesGroup chat2 d.messages
              display := disp
              chatInputDisabled := false
              sendDisabled := false } }
        | none =>
          { c with ui := { c.ui with
              chat := chat2
              display := disp
              chatInputDisabled := false
              sendDisabled := false } }

/-- `sendChoice` run to completion with network outcome `out`, with no
interleaved events between request and response. -/
def sendChoice (c : ClientState) (out : ChoiceOutcome) : ClientState :=
  match sendChoicePre c with
  | (c1, none) => c1
  | (c1, some _) => applyChoiceResponse c1 out

/-- The system-entry text the choice completion handler renders on a failed
submission: the server's `error` field, or the generic catch-path notice. -/
def errorEntryText : ChoiceOutcome → Option String
  | ChoiceOutcome.transportError => some "오류가 발생했습니다. 다시 시도해주세요."
  | ChoiceOutcome.response d => jsTruthy d.error

/-- Iterated start-button activations with no interleaved completion,
counting issued start requests. -/
def repeatStartClicks : ClientState → Nat → ClientState × Nat
  | c, 0 => (c, 0)
  | c, n + 1 =>
    let (c1, fired) := startClickPre c
    let (c2, k) := repeatStartClicks c1 n
    (c2, (if fired then 1 else 0) + k)

/-! Concrete fixtures used by witnesses and counterexample scenarios. -/

/-- The display right after a fresh start with full health/mental, no money. -/
def display0 : Display :=
  { healthIcons := updateIconGroup 3 3
    mentalIcons := updateIconGroup 3 3
    moneyIcons := updateIconGroup 0 3
    healthValue := "3/3"
    mentalValue := "3/3"
    moneyValue := "0/3"
    gadgetsList := "없음" }

/-- A mid-game UI: game screen shown, input controls enabled, text typed. -/
def uiLive : UI :=
  { welcomeVisible := false
    gameVisible := true
    gameOverVisible := false
    gameOverReason := ""
    startDisabled := true
    chatInputDisabled := false
    sendDisabled := false
    chatInputValue := "왼쪽 문을 연다"
    chat := []
    alerts := []
    display := display0 }

/-- A live mid-game client state with an active session. -/
def cLive : ClientState :=
  { session := { sessionId := some "s-1", currentEncounter := some "e-1", state := none }
    ui := uiLive }

/-- Same client state but with only whitespace typed into the input field. -/
def cWhitespace : ClientState :=
  { cLive with ui := { uiLive with chatInputValue := "   " } }

/-- C2: if the input field is empty or whitespace-only after trimming,
`sendChoice` is a silent no-op: no request is issued and the whole client
state (transcript, session, alerts, controls) is left untouched. -/
theorem c2_empty_input_silent_noop (c : ClientState)
    (h : jsTrim c.ui.chatInputValue = "") :
    (sendChoicePre c).2 = none ∧ ∀ out : ChoiceOutcome, sendChoice c out = c := by
  constructor
  · simp [sendChoicePre, h]
  · intro out
    simp [sendChoice, sendChoicePre, h]

/-- C2 witness: whitespace-only input on a live session changes nothing. -/
theorem c2_empty_input_silent_noop_witness :
    jsTrim cWhitespace.ui.chatInputValue = "" ∧
    ((sendChoicePre cWhitespace).2 = none ∧
      ∀ out : ChoiceOutcome, sendChoice cWhitespace out = cWhitespace) :=
  ⟨by decide, c2_empty_input_silent_noop cWhitespace (by decide)⟩

/-- C3: `updateGameState` is a no-op on an absent state; otherwise each
resource is read from `state.resources`, defaulted (health/mental to 3,
money to 0) when undefined, clamped to [0,3], and rendered as an "N/3"
label with N filled icons out of 3; in particular
`{health: -1, mental: 5, money: 2}` renders 0/3, 3/3, 2/3. -/
theorem c3_updateGameState_display :
    (∀ d : Display, updateGameState none d = d)
  ∧ (∀ d : Display,
      updateGameState (some { resources := some { health := some (-1), mental := some 5, money := some 2 }, gadgets := none }) d =
        { healthIcons := [false, false, false]
          mentalIcons := [true, true, true]
          moneyIcons := [true, true, false]
          healthValue := "0/3"
          mentalValue := "3/3"
          moneyValue := "2/3"
          gadgetsList := "없음" })
  ∧ (∀ d : Display,
      (updateGameState (some { resources := some { health := none, mental := none, money := none }, gadgets := none }) d).healthValue = "3/3"
    ∧ (updateGameState (some { resources := some { health := none, mental := none, money := none }, gadgets := none }) d).mentalValue = "3/3"
    ∧ (updateGameState (some { resources := some { health := none, mental := none, money := none }, gadgets := none }) d).moneyValue = "0/3")
  ∧ (∀ v : Int,
      (updateIconGroup (min 3 (max 0 v)) 3).count true = (min 3 (max 0 v)).toNat
    ∧ toString (min 3 (max 0 v)) = toString (min 3 (max 0 v)).toNat) := by
  refine ⟨fun d => rfl, fun d => rfl, fun d => ⟨rfl, rfl, rfl⟩, fun v => ?_⟩
  have hcases : min 3 (max 0 v) = 0 ∨ min 3 (max 0 v) = 1 ∨ min 3 (max 0 v) = 2 ∨ min 3 (max 0 v) = 3 := by
    omega
  rcases hcases with h | h | h | h <;> rw [h] <;> exact ⟨by decide, by decide⟩

/-- Helper: `scheduleFrom` preserves the item count. -/
theorem scheduleFrom_length (b : Nat) (items : List MessageItem) :
    (scheduleFrom b items).length = items.length := by
  induction items generalizing b with
  | nil => rfl
  | cons m rest ih => simp [scheduleFrom, ih]

/-- Helper: the `i`-th timer of `scheduleFrom b items` fires at
`(b + i) * 500` and renders the `i`-th item. -/
theorem scheduleFrom_get (b i : Nat) (items : List MessageItem) (h : i < items.length) :
    (scheduleFrom b items)[i]? = some ((b + i) * 500, items[i]) := by
  induction items generalizing b i with
  | nil => simp at h
  | cons m rest ih =>
    cases i with
    | zero => simp [scheduleFrom]
    | succ k =>
      have hk : k < rest.length := by simpa using h
      have hrw : b + 1 + k = b + (k + 1) := by omega
      simp [scheduleFrom, ih (b + 1) k hk, hrw]

/-- C7: the bubble sequencer schedules item `j` at delay `j * 500` measured
from call time, delays are monotone in the index, and the last of `N` items
fires at `(N - 1) * 500` — a fixed-step stagger, not a cumulative chain. -/
theorem c7_bubble_stagger (items : List MessageItem) (i j : Nat)
    (hij : i ≤ j) (hj : j < items.length) :
    (addEncounterBubblesSchedule items).length = items.length
  ∧ (addEncounterBubblesSchedule items)[j]? = some (j * 500, items[j])
  ∧ i * 500 ≤ j * 500
  ∧ (addEncounterBubblesSchedule items)[items.length - 1]? =
      some ((items.length - 1) * 500, items[items.length - 1]) := by
  have hne : items.isEmpty = false := by
    cases items with
    | nil => simp at hj
    | cons m rest => rfl
  have hlast : items.length - 1 < items.length := by omega
  refine ⟨?_, ?_, Nat.mul_le_mul_right 500 hij, ?_⟩
  · simp [addEncounterBubblesSchedule, hne, scheduleFrom_length]
  · simpa [addEncounterBubblesSchedule, hne] using scheduleFrom_get 0 j items hj
  · simpa [addEncounterBubblesSchedule, hne] using
      scheduleFrom_get 0 (items.length - 1) items hlast

/-- C7 witness: on a concrete two-item list, the second timer fires at 500
and monotonicity holds between indices 0 and 1. -/
theorem c7_bubble_stagger_witness :
    (0 : Nat) ≤ 1 ∧
    1 < ([{ type := none, content := some "하나", url := none, alt := none },
          { type := none, content := some "둘", url := none, alt := none }] : List MessageItem).length ∧
    (addEncounterBubblesSchedule
        [{ type := none, content := some "하나", url := none, alt := none },
         { type := none, content := some "둘", url := none, alt := none }])[1]? =
      some (500, { type := none, content := some "둘", url := none, alt := none }) :=
  ⟨by decide, by decide,
    (c7_bubble_stagger
      [{ type := none, content := some "하나", url := none, alt := none },
       { type := none, content := some "둘", url := none, alt := none }]
      0 1 (by decide) (by decide)).2.1⟩

/-- The concrete three-item list of the spec example: a text bubble, an
image with an empty URL, another text bubble. -/
def exBubbleItems : List MessageItem :=
  [{ type := none, content := some "첫 장면", url := none, alt := none },
   { type := some "image", content := none, url := some "", alt := none },
   { type := none, content := some "둘째 장면", url := none, alt := none }]

/-- C8: a fired bubble timer renders nothing for an image item with an
empty or absent URL and nothing for a text item that trims to empty, and
exactly one node otherwise (image with optional alt, or the trimmed text);
on the spec's 3-item example exactly 2 nodes appear, with stagger offsets
0, 500, 1000. -/
theorem c8_render_item_cases (m : MessageItem) :
    (m.type = some "image" → m.url.getD "" = "" → renderBubbleItem m = none)
  ∧ (m.type = some "image" → m.url.getD "" ≠ "" →
      renderBubbleItem m = some (RenderedNode.image (m.url.getD "") (m.alt.getD "")))
  ∧ (m.type ≠ some "image" → jsTrim (m.content.getD "") = "" → renderBubbleItem m = none)
  ∧ (m.type ≠ some "image" → jsTrim (m.content.getD "") ≠ "" →
      renderBubbleItem m = some (RenderedNode.bubble (jsTrim (m.content.getD ""))))
  ∧ (exBubbleItems.filterMap renderBubbleItem).length = 2
  ∧ (addEncounterBubblesSchedule exBubbleItems).map Prod.fst = [0, 500, 1000] := by
  refine ⟨?_, ?_, ?_, ?_, by decide, by decide⟩
  · intro ht hu
    simp [renderBubbleItem, ht, hu]
  · intro ht hu
    simp [renderBubbleItem, ht, hu]
  · intro ht hc
    simp [renderBubbleItem, ht, hc]
  · intro ht hc
    simp [renderBubbleItem, ht, hc]

/-- C8 witness: the empty-URL image item of the example list renders no
node. -/
theorem c8_render_item_cases_witness :
    renderBubbleItem { type := some "image", content := none, url := some "", alt := none } = none :=
  (c8_render_item_cases { type := some "image", content := none, url := some "", alt := none }).1
    rfl rfl

/-- C4: the result object yields at most one combined "result" chat entry:
zero or undefined deltas are omitted, positive deltas carry an explicit
"+", gadget entries with an unrecognized action are dropped, an empty
composite suppresses the entry, and the spec's `{health: -1, money: 0}`
example renders exactly the health delta. -/
theorem c4_result_entry (c : ClientState) (d : ChoiceData) (res : ChoiceResultData)
    (herr : jsTruthy d.error = none) (hcm : storyText d.choice_mapped = none)
    (hres : d.result = some res) (hgo : d.game_over = false)
    (hne : d.next_encounter = none) :
    (applyChoiceResponse c (ChoiceOutcome.response d)).ui.chat =
      c.ui.chat ++ (resultEntry res).toList
  ∧ (buildResultText res = "" → resultEntry res = none)
  ∧ (∀ mtl mon : Option Int,
      resourceChanges { health := some 0, mental := mtl, money := mon } =
        resourceChanges { health := none, mental := mtl, money := mon })
  ∧ (∀ h : Int, 0 < h →
      resourceChanges { health := some h, mental := none, money := none } =
        ["체력: +" ++ toString h])
  ∧ (∀ g : GadgetChange, g.action ≠ "acquire" → g.action ≠ "lose" →
      gadgetChangeText g = none)
  ∧ resultEntry { resources := some { health := some (-1), mental := none, money := some 0 }, gadgets := [] } =
      some (ChatEntry.msg "자원 변화: 체력: -1" "result") := by
  refine ⟨?_, ?_, ?_, ?_, ?_, by decide⟩
  · simp [applyChoiceResponse, herr, hcm, hres, hgo, hne]
  · intro h
    simp [resultEntry, h]
  · intro mtl mon
    simp [resourceChanges]
  · intro h hpos
    simp [resourceChanges, hpos.ne.symm, hpos]
  · intro g h1 h2
    simp [gadgetChangeText, h1, h2]

/-- C4 witness: a success response carrying only the example result object
appends exactly the one combined result entry. -/
theorem c4_result_entry_witness :
    (applyChoiceResponse cLive (ChoiceOutcome.response
        { error := none, choice_mapped := none,
          result := some { resources := some { health := some (-1), mental := none, money := some 0 }, gadgets := [] },
          state := none, game_over := false, game_over_reason := none,
          next_encounter := none, messages := [] })).ui.chat =
      cLive.ui.chat ++
        (resultEntry { resources := some { health := some (-1), mental := none, money := some 0 }, gadgets := [] }).toList :=
  (c4_result_entry cLive
    { error := none, choice_mapped := none,
      result := some { resources := some { health := some (-1), mental := none, money := some 0 }, gadgets := [] },
      state := none, game_over := false, game_over_reason := none,
      next_encounter := none, messages := [] }
    { resources := some { health := some (-1), mental := none, money := some 0 }, gadgets := [] }
    rfl rfl rfl rfl rfl).1

/-- C5: a successful choice response with `game_over` set switches to the
game-over view with the supplied reason (default literal when absent),
leaves the whole session record untouched (no `next_encounter` processing
even when one is present), keeps both input controls disabled, and still
syncs the display from the response's `state`. -/
theorem c5_game_over (c : ClientState) (sid : String) (d : ChoiceData)
    (hin : jsTrim c.ui.chatInputValue ≠ "")
    (hsid : c.session.sessionId = some sid)
    (herr : jsTruthy d.error = none)
    (hgo : d.game_over = true) :
    (sendChoice c (ChoiceOutcome.response d)).ui.gameOverVisible = true
  ∧ (sendChoice c (ChoiceOutcome.response d)).ui.gameVisible = false
  ∧ (sendChoice c (ChoiceOutcome.response d)).ui.gameOverReason =
      (jsTruthy d.game_over_reason).getD "게임이 종료되었습니다."
  ∧ (d.game_over_reason = none →
      (sendChoice c (ChoiceOutcome.response d)).ui.gameOverReason = "게임이 종료되었습니다.")
  ∧ (sendChoice c (ChoiceOutcome.response d)).session = c.session
  ∧ (sendChoice c (ChoiceOutcome.response d)).ui.chatInputDisabled = true
  ∧ (sendChoice c (ChoiceOutcome.response d)).ui.sendDisabled = true
  ∧ (sendChoice c (ChoiceOutcome.response d)).ui.display =
      updateGameState d.state c.ui.display := by
  have hmain :
      sendChoice c (ChoiceOutcome.response d) =
        applyChoiceResponse
          { c with ui := { c.ui with
              chat := addMessage c.ui.chat (jsTrim c.ui.chatInputValue) "player"
              chatInputValue := ""
              chatInputDisabled := true
              sendDisabled := true } }
          (ChoiceOutcome.response d) := by
    simp [sendChoice, sendChoicePre, hin, hsid]
  rw [hmain]
  refine ⟨?_, ?_, ?_, ?_, ?_, ?_, ?_, ?_⟩ <;>
    simp [applyChoiceResponse, herr, hgo]
  intro hnone
  simp [hnone, jsTruthy]

/-- C5 witness: a game-over response without a reason on a live state shows
the default reason and keeps the controls disabled. -/
theorem c5_game_over_witness :
    (sendChoice cLive (ChoiceOutcome.response
        { error := none, choice_mapped := none, result := none, state := none,
          game_over := true, game_over_reason := none,
          next_encounter := some "e-2", messages := [] })).ui.gameOverVisible = true :=
  (c5_game_over cLive "s-1"
    { error := none, choice_mapped := none, result := none, state := none,
      game_over := true, game_over_reason := none,
      next_encounter := some "e-2", messages := [] }
    (by decide) rfl rfl rfl).1

/-- C6: a failed choice submission — server `error` field or transport
failure — leaves the session record exactly as before the request, renders
the error text as a "system" chat entry after the echoed player entry, and
re-enables both input controls. -/
theorem c6_error_recovery (c : ClientState) (sid e : String) (out : ChoiceOutcome)
    (hin : jsTrim c.ui.chatInputValue ≠ "")
    (hsid : c.session.sessionId = some sid)
    (herr : errorEntryText out = some e) :
    (sendChoice c out).session = c.session
  ∧ (sendChoice c out).ui.chat =
      c.ui.chat ++ [ChatEntry.msg (jsTrim c.ui.chatInputValue) "player", ChatEntry.msg e "system"]
  ∧ (sendChoice c out).ui.chatInputDisabled = false
  ∧ (sendChoice c out).ui.sendDisabled = false := by
  have hmain :
      sendChoice c out =
        applyChoiceResponse
          { c with ui := { c.ui with
              chat := addMessage c.ui.chat (jsTrim c.ui.chatInputValue) "player"
              chatInputValue := ""
              chatInputDisabled := true
              sendDisabled := true } }
          out := by
    simp [sendChoice, sendChoicePre, hin, hsid]
  rw [hmain]
  cases out with
  | transportError =>
    have he : e = "오류가 발생했습니다. 다시 시도해주세요." := by
      simpa [errorEntryText] using herr.symm
    subst he
    refine ⟨rfl, ?_, rfl, rfl⟩
    simp [applyChoiceResponse, addMessage]
  | response d =>
    have he : jsTruthy d.error = some e := by simpa [errorEntryText] using herr
    refine ⟨?_, ?_, ?_, ?_⟩ <;> simp [applyChoiceResponse, he, addMessage]

/-- C6 witness: a server-reported error on a live state re-enables the
controls and leaves the session untouched. -/
theorem c6_error_recovery_witness :
    (sendChoice cLive (ChoiceOutcome.response
        { error := some "세션을 찾을 수 없습니다.", choice_mapped := none, result := none,
          state := none, game_over := false, game_over_reason := none,
          next_encounter := none, messages := [] })).session = cLive.session :=
  (c6_error_recovery cLive "s-1" "세션을 찾을 수 없습니다."
    (ChoiceOutcome.response
      { error := some "세션을 찾을 수 없습니다.", choice_mapped := none, result := none,
        state := none, game_over := false, game_over_reason := none,
        next_encounter := none, messages := [] })
    (by decide) rfl (by decide)).1

/-- Helper: while the start button is disabled, further activations change
nothing and fire nothing. -/
theorem repeatStartClicks_disabled (c : ClientState) (n : Nat)
    (h : c.ui.startDisabled = true) :
    repeatStartClicks c n = (c, 0) := by
  induction n with
  | zero => rfl
  | succ m ih => simp [repeatStartClicks, startClickPre, h, ih]

/-- C9: the start control is disabled before any network I/O whenever a
request fires, so any burst of `n ≥ 1` activations with no intervening
completion issues exactly one start request. -/
theorem c9_single_start_request (c : ClientState) (n : Nat)
    (henabled : c.ui.startDisabled = false) (hn : 1 ≤ n) :
    (repeatStartClicks c n).2 = 1
  ∧ (∀ c2 : ClientState, (startClickPre c2).2 = true →
      (startClickPre c2).1.ui.startDisabled = true) := by
  constructor
  · cases n with
    | zero => omega
    | succ m =>
      have hfire : startClickPre c =
          ({ c with ui := { c.ui with startDisabled := true, chat := [] } }, true) := by
        simp [startClickPre, henabled]
      simp [repeatStartClicks, hfire,
        repeatStartClicks_disabled { c with ui := { c.ui with startDisabled := true, chat := [] } } m rfl]
  · intro c2 hf
    by_cases hd : c2.ui.startDisabled = true
    · simp [startClickPre, hd] at hf
    · simp [startClickPre, hd]

/-- C9 witness: two rapid activations from the welcome screen issue exactly
one start request. -/
theorem c9_single_start_request_witness :
    (repeatStartClicks (restartClick cLive) 2).2 = 1 :=
  (c9_single_start_request (restartClick cLive) 2 rfl (by decide)).1

/-- C10: restart resets the session record to absent, hides the game-over
view, shows the welcome view, clears the transcript and re-enables the
start control, but never touches the input-field/send-button `disabled`
flags — and a subsequent start (any outcome) does not touch them either,
so controls disabled at game over stay disabled after restart + start. -/
theorem c10_restart_frame (c : ClientState) (out : StartOutcome) :
    (restartClick c).session = { sessionId := none, currentEncounter := none, state := none }
  ∧ (restartClick c).ui.gameOverVisible = false
  ∧ (restartClick c).ui.welcomeVisible = true
  ∧ (restartClick c).ui.chat = []
  ∧ (restartClick c).ui.startDisabled = false
  ∧ (restartClick c).ui.chatInputDisabled = c.ui.chatInputDisabled
  ∧ (restartClick c).ui.sendDisabled = c.ui.sendDisabled
  ∧ (restartClick c).ui.gameVisible = c.ui.gameVisible
  ∧ (startClick (restartClick c) out).ui.chatInputDisabled = c.ui.chatInputDisabled
  ∧ (startClick (restartClick c) out).ui.sendDisabled = c.ui.sendDisabled := by
  refine ⟨rfl, rfl, rfl, rfl, rfl, rfl, rfl, rfl, ?_, ?_⟩ <;>
  · cases out with
    | transportError => simp [startClick, startClickPre, restartClick]
    | response d =>
      cases he : jsTruthy d.error with
      | none => simp [startClick, startClickPre, restartClick, he]
      | some e => simp [startClick, startClickPre, restartClick, he]

/-- The client state while a choice request is in flight mid-game: session
`s-1` live, both input controls disabled, the player's echo in the chat. -/
def cInFlight : ClientState :=
  { session := { sessionId := some "s-1", currentEncounter := some "e-1", state := none }
    ui := { uiLive with
      chatInputValue := ""
      chatInputDisabled := true
      sendDisabled := true
      chat := [ChatEntry.msg "왼쪽 문을 연다" "player"] } }

/-- The late-arriving success response of the stale request. -/
def dLate : ChoiceData :=
  { error := none
    choice_mapped := none
    result := none
    state := none
    game_over := false
    game_over_reason := none
    next_encounter := some "낡은 지하철"
    messages := [{ type := none, content := some "다음 장면이 펼쳐진다", url := none, alt := none }] }

/-- C1 evidence: after `restartClick` resets the session, the completion
handler of the still-outstanding choice request runs with no
session-identity check: it overwrites `currentEncounter` of the now-fresh
session and appends chat entries for the stale session, instead of
discarding the late result. -/
theorem c1_late_response_applied :
    (restartClick cInFlight).session.currentEncounter = none
  ∧ (restartClick cInFlight).ui.chat = []
  ∧ (applyChoiceResponse (restartClick cInFlight) (ChoiceOutcome.response dLate)).session.currentEncounter =
      some "낡은 지하철"
  ∧ (applyChoiceResponse (restartClick cInFlight) (ChoiceOutcome.response dLate)).ui.chat =
      [ChatEntry.encounterGroup dLate.messages] := by
  refine ⟨rfl, rfl, by decide, by decide⟩

end GameJs
